import Mathlib

/-!
Shallow embedding of `src/main.py` (Network Status Monitor).

The program is a tkinter application: a single event loop owns all state
(`is_monitoring`, `previous_status`, `history`, `_monitor_job`), a worker
thread per cycle runs the HTTP probe, and results come back to the event
loop through `root.after(0, _update_status, is_online)`.

The embedding models the event-loop-visible state as a structure and each
method of `NetworkStatusMonitor` as a function on it.  Pure presentation
plumbing (fonts, colors of widgets, button enable/disable, the scrolled
text box that mirrors `self.history`) is not modelled beyond the status
label text and color that `_update_status` / `stop_monitoring` write.
Two ghost counters (`launched_probes`, `delivered_results`) count worker
threads started (`thread.start()`, main.py:167-168) and probe results
handed back to the event loop; the list `pending_triggers` models the
tkinter timer queue of pending `after(CHECK_INTERVAL, ...)` jobs, of which
`monitor_job` (`self._monitor_job`) holds the last registered id.
-/

set_option autoImplicit false

namespace NetMon

/-- Alert kinds: `messagebox.showinfo` vs `messagebox.showwarning`. -/
inductive AlertKind where
  | info
  | warning
deriving Repr, DecidableEq

/-- A popup alert: kind, window title and message (main.py:209, 213). -/
structure Alert where
  kind : AlertKind
  title : String
  message : String
deriving Repr, DecidableEq

/-- `CHECK_URL` (main.py:20). -/
def CHECK_URL : String := "https://www.google.com"

/-- `CHECK_TIMEOUT` in seconds (main.py:21). -/
def CHECK_TIMEOUT : Nat := 3

/-- `CHECK_INTERVAL` in milliseconds (main.py:22). -/
def CHECK_INTERVAL : Nat := 3000

/-- Event-loop-visible state of `NetworkStatusMonitor`. -/
structure MonitorState where
  /-- `self.is_monitoring` (main.py:32). -/
  is_monitoring : Bool
  /-- `self.previous_status` (main.py:33): `none` models Python `None`. -/
  previous_status : Option Bool
  /-- `self.history` (main.py:34). -/
  history : List String
  /-- `self._monitor_job` (main.py:35): id of the last `after` job. -/
  monitor_job : Option Nat
  /-- Ghost: the tkinter queue of still-pending periodic `after` jobs. -/
  pending_triggers : List Nat
  /-- Ghost: fresh id supply for `after` job handles. -/
  next_job_id : Nat
  /-- Ghost: number of probe worker threads started (main.py:167-168). -/
  launched_probes : Nat
  /-- Ghost: number of probe results delivered to `_update_status`. -/
  delivered_results : Nat
  /-- Alerts shown so far (`messagebox` calls), in order. -/
  alerts : List Alert
  /-- Text of `self.status_label`. -/
  status_text : String
  /-- Foreground color of `self.status_label`. -/
  status_fg : String
deriving Repr, DecidableEq

/-- State after `__init__` (main.py:31-35) and `_build_ui` (label main.py:59). -/
def initState : MonitorState where
  is_monitoring := false
  previous_status := none
  history := []
  monitor_job := none
  pending_triggers := []
  next_job_id := 0
  launched_probes := 0
  delivered_results := 0
  alerts := []
  status_text := "⏸  Not Monitoring"
  status_fg := "#a6adc8"

/-- Outcome of the `requests.get` call in `_check_connection` (main.py:180).
All listed failure modes are subclasses of `requests.RequestException`,
the only exception class the `except` clause catches (main.py:183). -/
inductive ProbeOutcome where
  | completed (status_code : Nat)
  | timeout
  | dns_failure
  | connection_refused
  | tls_failure
  | malformed_response
deriving Repr, DecidableEq

/-- `_check_connection` (main.py:173-187), restricted to the classification
it computes: on a completed request, `is_online = status_code < 400`
(main.py:182); on any `requests.RequestException`, `is_online = False`
(main.py:183-184).  The Lean function is total: no outcome escapes. -/
def check_connection : ProbeOutcome → Bool
  | ProbeOutcome.completed status_code => decide (status_code < 400)
  | ProbeOutcome.timeout => false
  | ProbeOutcome.dns_failure => false
  | ProbeOutcome.connection_refused => false
  | ProbeOutcome.tls_failure => false
  | ProbeOutcome.malformed_response => false

/-- `_log_history` (main.py:224-232): append to `self.history` (the text
box mirrors the list and is not modelled separately). -/
def log_history (s : MonitorState) (message : String) : MonitorState :=
  { s with history := s.history ++ [message] }

/-- `_schedule_check` (main.py:160-171): if not monitoring, return; else
start a worker thread for `_check_connection` and register the next
periodic `after(CHECK_INTERVAL, _schedule_check)` job in `_monitor_job`. -/
def schedule_check (s : MonitorState) : MonitorState :=
  if s.is_monitoring = false then s
  else
    { s with
      launched_probes := s.launched_probes + 1
      pending_triggers := s.pending_triggers ++ [s.next_job_id]
      monitor_job := some s.next_job_id
      next_job_id := s.next_job_id + 1 }

/-- `start_monitoring` (main.py:126-139): no-op while already running;
else set `is_monitoring`, reset `previous_status` to `None`, log
"Monitoring started." and call `_schedule_check`.  Button state changes
(main.py:135-136) are presentation only. -/
def start_monitoring (s : MonitorState) : MonitorState :=
  if s.is_monitoring then s
  else
    schedule_check
      (log_history
        { s with is_monitoring := true, previous_status := none }
        "Monitoring started.")

/-- `stop_monitoring` (main.py:141-155): clear `is_monitoring`, cancel the
pending `after` job if any (`after_cancel`, main.py:146-148), reset the
status label and log "Monitoring stopped.". -/
def stop_monitoring (s : MonitorState) : MonitorState :=
  let s1 : MonitorState := { s with is_monitoring := false }
  let s2 : MonitorState :=
    match s1.monitor_job with
    | some j =>
        { s1 with pending_triggers := s1.pending_triggers.erase j, monitor_job := none }
    | none => s1
  let s3 : MonitorState :=
    { s2 with status_text := "⏸  Not Monitoring", status_fg := "#a6adc8" }
  log_history s3 "Monitoring stopped."

/-- `_update_status` (main.py:192-219).  `timestamp` stands for the string
`datetime.now().strftime(...)` computed at main.py:197.  Sets the status
label (main.py:199-202); if the status changed, logs and pops an alert
(main.py:205-213); if this is the first check, logs the initial status
(main.py:214-217); finally overwrites `previous_status` (main.py:219). -/
def update_status (s : MonitorState) (is_online : Bool) (timestamp : String) :
    MonitorState :=
  let s1 : MonitorState :=
    if is_online then
      { s with status_text := "🟢  Online", status_fg := "#a6e3a1" }
    else
      { s with status_text := "🔴  Offline", status_fg := "#f38ba8" }
  let s2 : MonitorState :=
    match s.previous_status with
    | some prev =>
        if is_online ≠ prev then
          if is_online then
            let m := log_history s1 ("🟢 RECONNECTED  — " ++ timestamp)
            { m with alerts := m.alerts ++
                [⟨AlertKind.info, "Network Status",
                  "Internet reconnected at " ++ timestamp⟩] }
          else
            let m := log_history s1 ("🔴 DISCONNECTED — " ++ timestamp)
            { m with alerts := m.alerts ++
                [⟨AlertKind.warning, "Network Status",
                  "Internet disconnected at " ++ timestamp⟩] }
        else s1
    | none =>
        log_history s1
          ("Initial status: " ++ (if is_online then "Online" else "Offline")
            ++ " — " ++ timestamp)
  { s2 with previous_status := some is_online }

/-- One event processed by the tkinter event loop. -/
inductive MonitorOp where
  /-- Start button pressed: `start_monitoring`. -/
  | press_start
  /-- Stop button pressed: `stop_monitoring`. -/
  | press_stop
  /-- A pending `after(CHECK_INTERVAL, _schedule_check)` job fires:
  tkinter removes it from its queue and runs `_schedule_check`. -/
  | timer_fire
  /-- A worker thread finishes and its `after(0, _update_status, b)`
  callback runs on the event loop (main.py:187). -/
  | probe_result (is_online : Bool) (timestamp : String)

/-- The event loop: dispatch one event. -/
def step (s : MonitorState) : MonitorOp → MonitorState
  | MonitorOp.press_start => start_monitoring s
  | MonitorOp.press_stop => stop_monitoring s
  | MonitorOp.timer_fire =>
      match s.pending_triggers with
      | [] => s
      | _ :: rest => schedule_check { s with pending_triggers := rest }
  | MonitorOp.probe_result b ts =>
      { update_status s b ts with delivered_results := s.delivered_results + 1 }

/-- Run the event loop over a list of events. -/
def run (s : MonitorState) (ops : List MonitorOp) : MonitorState :=
  ops.foldl step s

/-- Coherence of the periodic-trigger queue: at most one pending periodic
`after` job, none while Idle, and any pending one is the job recorded in
`self._monitor_job`. -/
def TriggerInv (s : MonitorState) : Prop :=
  s.pending_triggers.length ≤ 1 ∧
  (s.is_monitoring = false → s.pending_triggers = []) ∧
  (∀ j ∈ s.pending_triggers, s.monitor_job = some j)

/-- `n` consecutive firings of the periodic timer (each one runs
`_schedule_check` through the event loop). -/
def timerFires : Nat → MonitorState → MonitorState
  | 0, s => s
  | n + 1, s => timerFires n (step s MonitorOp.timer_fire)

/-! ## Helper lemmas -/

theorem schedule_check_previous_status (s : MonitorState) :
    (schedule_check s).previous_status = s.previous_status := by
  unfold schedule_check
  split <;> rfl

theorem schedule_check_history (s : MonitorState) :
    (schedule_check s).history = s.history := by
  unfold schedule_check
  split <;> rfl

theorem step_timer_previous_status (s : MonitorState) :
    (step s MonitorOp.timer_fire).previous_status = s.previous_status := by
  cases hq : s.pending_triggers with
  | nil => simp [step, hq]
  | cons a r => simp [step, hq, schedule_check_previous_status]

theorem timerFires_previous_status (n : Nat) (s : MonitorState) :
    (timerFires n s).previous_status = s.previous_status := by
  induction n generalizing s with
  | zero => rfl
  | succ n ih => rw [timerFires, ih, step_timer_previous_status]

theorem start_monitoring_previous_status (s : MonitorState)
    (h : s.is_monitoring = false) :
    (start_monitoring s).previous_status = none := by
  simp [start_monitoring, h, schedule_check, log_history]

theorem update_status_initial (s : MonitorState) (b : Bool) (ts : String)
    (h : s.previous_status = none) :
    (update_status s b ts).history
      = s.history
        ++ ["Initial status: " ++ (if b then "Online" else "Offline") ++ " — " ++ ts]
      ∧ (update_status s b ts).alerts = s.alerts := by
  cases b <;> simp [update_status, log_history, h]

theorem update_status_previous_status (s : MonitorState) (b : Bool) (ts : String) :
    (update_status s b ts).previous_status = some b := by
  cases hp : s.previous_status with
  | none => cases b <;> simp [update_status, log_history, hp]
  | some p => cases p <;> cases b <;> simp [update_status, log_history, hp]

theorem update_status_fields (s : MonitorState) (b : Bool) (ts : String) :
    (update_status s b ts).pending_triggers = s.pending_triggers
      ∧ (update_status s b ts).is_monitoring = s.is_monitoring
      ∧ (update_status s b ts).monitor_job = s.monitor_job
      ∧ (update_status s b ts).launched_probes = s.launched_probes
      ∧ (update_status s b ts).next_job_id = s.next_job_id := by
  cases hp : s.previous_status with
  | none => cases b <;> simp [update_status, log_history, hp]
  | some p => cases p <;> cases b <;> simp [update_status, log_history, hp]

theorem update_status_history_suffix (s : MonitorState) (b : Bool) (ts : String) :
    ∃ t, (update_status s b ts).history = s.history ++ t := by
  cases hp : s.previous_status with
  | none =>
      exact ⟨["Initial status: " ++ (if b then "Online" else "Offline") ++ " — " ++ ts],
        by cases b <;> simp [update_status, log_history, hp]⟩
  | some p =>
      cases p <;> cases b
      · exact ⟨[], by simp [update_status, log_history, hp]⟩
      · exact ⟨["🟢 RECONNECTED  — " ++ ts], by simp [update_status, log_history, hp]⟩
      · exact ⟨["🔴 DISCONNECTED — " ++ ts], by simp [update_status, log_history, hp]⟩
      · exact ⟨[], by simp [update_status, log_history, hp]⟩

theorem step_history_suffix (s : MonitorState) (op : MonitorOp) :
    ∃ t, (step s op).history = s.history ++ t := by
  cases op with
  | press_start =>
      cases hm : s.is_monitoring with
      | true => exact ⟨[], by simp [step, start_monitoring, hm]⟩
      | false =>
          exact ⟨["Monitoring started."],
            by simp [step, start_monitoring, hm, schedule_check, log_history]⟩
  | press_stop =>
      cases hj : s.monitor_job with
      | none =>
          exact ⟨["Monitoring stopped."],
            by simp [step, stop_monitoring, hj, log_history]⟩
      | some j =>
          exact ⟨["Monitoring stopped."],
            by simp [step, stop_monitoring, hj, log_history]⟩
  | timer_fire =>
      cases hq : s.pending_triggers with
      | nil => exact ⟨[], by simp [step, hq]⟩
      | cons a r => exact ⟨[], by simp [step, hq, schedule_check_history]⟩
  | probe_result b ts =>
      obtain ⟨t, ht⟩ := update_status_history_suffix s b ts
      exact ⟨t, by simp [step, ht]⟩

theorem run_history_suffix (s : MonitorState) (ops : List MonitorOp) :
    ∃ t, (run s ops).history = s.history ++ t := by
  induction ops generalizing s with
  | nil => exact ⟨[], by simp [run]⟩
  | cons op ops ih =>
      obtain ⟨t1, ht1⟩ := step_history_suffix s op
      obtain ⟨t2, ht2⟩ := ih (step s op)
      exact ⟨t1 ++ t2, by simp [run] at ht2 ⊢; rw [ht2, ht1, List.append_assoc]⟩

theorem pending_shape (s : MonitorState)
    (h1 : s.pending_triggers.length ≤ 1)
    (h3 : ∀ j ∈ s.pending_triggers, s.monitor_job = some j) :
    s.pending_triggers = [] ∨
      ∃ j, s.pending_triggers = [j] ∧ s.monitor_job = some j := by
  cases hq : s.pending_triggers with
  | nil => exact Or.inl rfl
  | cons a r =>
      cases r with
      | nil => exact Or.inr ⟨a, rfl, h3 a (by simp [hq])⟩
      | cons c r2 => rw [hq] at h1; simp [List.length] at h1

theorem step_triggerInv (s : MonitorState) (op : MonitorOp)
    (h : TriggerInv s) : TriggerInv (step s op) := by
  obtain ⟨h1, h2, h3⟩ := h
  cases op with
  | press_start =>
      cases hm : s.is_monitoring with
      | true => simpa [step, start_monitoring, hm] using ⟨h1, h2, h3⟩
      | false =>
          have hp := h2 hm
          simp [step, start_monitoring, hm, schedule_check, log_history, hp, TriggerInv]
  | press_stop =>
      rcases pending_shape s h1 h3 with hq | ⟨j, hq, hj⟩
      · cases hj : s.monitor_job with
        | none => simp [step, stop_monitoring, hj, log_history, hq, TriggerInv]
        | some j => simp [step, stop_monitoring, hj, log_history, hq, TriggerInv]
      · simp [step, stop_monitoring, hj, log_history, hq, TriggerInv]
  | timer_fire =>
      cases hq : s.pending_triggers with
      | nil => simpa [step, hq] using ⟨h1, h2, h3⟩
      | cons a r =>
          have hr : r = [] := by
            cases r with
            | nil => rfl
            | cons c r2 => rw [hq] at h1; simp [List.length] at h1
          subst hr
          have hm : s.is_monitoring = true := by
            cases hmm : s.is_monitoring with
            | true => rfl
            | false => rw [h2 hmm] at hq; cases hq
          simp [step, hq, schedule_check, hm, TriggerInv]
  | probe_result b ts =>
      obtain ⟨f1, f2, f3, _, _⟩ := update_status_fields s b ts
      refine ⟨?_, ?_, ?_⟩ <;> simp [step, f1, f2, f3]
      · exact h1
      · exact h2
      · exact h3

theorem initState_triggerInv : TriggerInv initState := by
  refine ⟨?_, ?_, ?_⟩ <;> simp [initState, TriggerInv]

theorem run_triggerInv (s : MonitorState) (h : TriggerInv s)
    (ops : List MonitorOp) : TriggerInv (run s ops) := by
  induction ops generalizing s with
  | nil => exact h
  | cons op ops ih => exact ih (step s op) (step_triggerInv s op h)

/-- A concrete state whose previous reading is Offline, used to instantiate
universally quantified theorems. -/
def idleOfflineDemo : MonitorState :=
  { initState with previous_status := some false }

/-! ## Claim theorems -/

/-- C1: starting monitoring from an Idle state (also a start that follows a
stop) resets `previous_status`, so whatever the prior history and however
many timer cycles fire before the first probe result arrives, that first
result is classified Initial: the line
"Initial status: <Online|Offline> — <timestamp>" is appended to the
history and no alert is shown. -/
theorem first_result_after_start_is_initial (s : MonitorState)
    (h : s.is_monitoring = false) (n : Nat) (b : Bool) (ts : String) :
    (update_status (timerFires n (start_monitoring s)) b ts).history
      = (timerFires n (start_monitoring s)).history
        ++ ["Initial status: " ++ (if b then "Online" else "Offline") ++ " — " ++ ts]
      ∧ (update_status (timerFires n (start_monitoring s)) b ts).alerts
        = (timerFires n (start_monitoring s)).alerts := by
  have hprev : (timerFires n (start_monitoring s)).previous_status = none := by
    rw [timerFires_previous_status, start_monitoring_previous_status s h]
  exact update_status_initial _ b ts hprev

/-- C1 witness: concrete instance at the fresh state, one timer cycle,
an online first result. -/
theorem first_result_after_start_is_initial_witness :
    initState.is_monitoring = false
      ∧ ((update_status (timerFires 1 (start_monitoring initState)) true "T").history
          = (timerFires 1 (start_monitoring initState)).history
            ++ ["Initial status: " ++ (if true then "Online" else "Offline") ++ " — " ++ "T"]
        ∧ (update_status (timerFires 1 (start_monitoring initState)) true "T").alerts
          = (timerFires 1 (start_monitoring initState)).alerts) :=
  ⟨rfl, first_result_after_start_is_initial initState rfl 1 true "T"⟩

/-- C2: when the new result differs from the previous reading, the
classification is BecameOnline exactly when the new result is reachable
(RECONNECTED history line plus info alert) and BecameOffline otherwise
(DISCONNECTED history line plus warning alert). -/
theorem transition_classification (s : MonitorState) (p b : Bool) (ts : String)
    (hp : s.previous_status = some p) (hne : b ≠ p) :
    (b = true →
        (update_status s b ts).history = s.history ++ ["🟢 RECONNECTED  — " ++ ts]
          ∧ (update_status s b ts).alerts = s.alerts
              ++ [⟨AlertKind.info, "Network Status", "Internet reconnected at " ++ ts⟩])
      ∧ (b = false →
        (update_status s b ts).history = s.history ++ ["🔴 DISCONNECTED — " ++ ts]
          ∧ (update_status s b ts).alerts = s.alerts
              ++ [⟨AlertKind.warning, "Network Status", "Internet disconnected at " ++ ts⟩]) := by
  constructor
  · intro hb
    subst hb
    cases p with
    | true => exact absurd rfl hne
    | false => simp [update_status, log_history, hp]
  · intro hb
    subst hb
    cases p with
    | false => exact absurd rfl hne
    | true => simp [update_status, log_history, hp]

/-- C2 witness: a state holding `previous_status = some false` given a
reachable result shows RECONNECTED with an info alert. -/
theorem transition_classification_witness :
    (update_status idleOfflineDemo true "T").history
        = idleOfflineDemo.history ++ ["🟢 RECONNECTED  — " ++ "T"]
      ∧ (update_status idleOfflineDemo true "T").alerts
        = idleOfflineDemo.alerts
            ++ [⟨AlertKind.info, "Network Status", "Internet reconnected at " ++ "T"⟩] :=
  (transition_classification idleOfflineDemo false true "T" rfl (by decide)).1 rfl

/-- C3: when the new result equals the previous reading, nothing is
appended to the history and no alert is shown; only the status label is
refreshed. -/
theorem unchanged_classification (s : MonitorState) (b : Bool) (ts : String)
    (hp : s.previous_status = some b) :
    (update_status s b ts).history = s.history
      ∧ (update_status s b ts).alerts = s.alerts
      ∧ (update_status s b ts).status_text
          = (if b then "🟢  Online" else "🔴  Offline") := by
  cases b <;> simp [update_status, log_history, hp]

/-- C3 witness: a repeated Offline reading leaves history and alerts
untouched and refreshes the label. -/
theorem unchanged_classification_witness :
    (update_status idleOfflineDemo false "T").history = idleOfflineDemo.history
      ∧ (update_status idleOfflineDemo false "T").alerts = idleOfflineDemo.alerts
      ∧ (update_status idleOfflineDemo false "T").status_text
          = (if false then "🟢  Online" else "🔴  Offline") :=
  unchanged_classification idleOfflineDemo false "T" rfl

/-- C4: the probe classifies reachable exactly when the request completed
with status below 400; every failure mode of the request collapses to
unreachable, with no distinction of causes, and `check_connection` is a
total function (the `except requests.RequestException` clause covers every
listed failure, so the probe raises no fatal error). -/
theorem probe_reachable_iff :
    (∀ o : ProbeOutcome, check_connection o = true ↔
        ∃ code, o = ProbeOutcome.completed code ∧ code < 400)
      ∧ check_connection ProbeOutcome.timeout = false
      ∧ check_connection ProbeOutcome.dns_failure = false
      ∧ check_connection ProbeOutcome.connection_refused = false
      ∧ check_connection ProbeOutcome.tls_failure = false
      ∧ check_connection ProbeOutcome.malformed_response = false := by
  refine ⟨?_, rfl, rfl, rfl, rfl, rfl⟩
  intro o
  cases o <;> simp [check_connection]

/-- C5: after every classification `previous_status` holds the just-seen
result, whichever branch was taken; `stop_monitoring` leaves it untouched,
and only `start_monitoring` (from Idle) resets it to unset. -/
theorem previous_reading_discipline :
    (∀ (s : MonitorState) (b : Bool) (ts : String),
        (update_status s b ts).previous_status = some b)
      ∧ (∀ s : MonitorState,
        (stop_monitoring s).previous_status = s.previous_status)
      ∧ (∀ s : MonitorState, s.is_monitoring = false →
        (start_monitoring s).previous_status = none) := by
  refine ⟨update_status_previous_status, ?_, start_monitoring_previous_status⟩
  intro s
  cases hj : s.monitor_job <;> simp [stop_monitoring, log_history, hj]

/-- C5 witness: concrete instances of all three conjuncts. -/
theorem previous_reading_discipline_witness :
    (update_status initState true "T").previous_status = some true
      ∧ (stop_monitoring initState).previous_status = initState.previous_status
      ∧ (start_monitoring initState).previous_status = none :=
  ⟨previous_reading_discipline.1 initState true "T",
    previous_reading_discipline.2.1 initState,
    previous_reading_discipline.2.2 initState rfl⟩

/-- The state reached by start, one Online probe result, then stop:
`is_monitoring = false`, `previous_status = some true`, no alert yet. -/
def idleAfterStop : MonitorState :=
  run initState
    [MonitorOp.press_start, MonitorOp.probe_result true "t1", MonitorOp.press_stop]

/-- C6 counterexample: `_update_status` never checks `is_monitoring`, so a
probe result delivered after `stop_monitoring` is NOT discarded: from the
Idle state reached by start, one Online result, stop, a late Offline
result still appends a history line, shows a warning alert and overwrites
`previous_status` — refuting "no alert is shown and no state mutation
occurs for results received while Idle". -/
theorem idle_result_discarded_cex :
    idleAfterStop.is_monitoring = false
      ∧ idleAfterStop.previous_status = some true
      ∧ idleAfterStop.alerts.length = 0
      ∧ (step idleAfterStop (MonitorOp.probe_result false "t2")).previous_status
          = some false
      ∧ (step idleAfterStop (MonitorOp.probe_result false "t2")).alerts.length
          = idleAfterStop.alerts.length + 1
      ∧ (step idleAfterStop (MonitorOp.probe_result false "t2")).history.length
          = idleAfterStop.history.length + 1 := by
  refine ⟨rfl, rfl, rfl, rfl, rfl, rfl⟩

/-- C6 amended: a probe result delivered after `stop()` is handled without
crashing, but it is not discarded: `_update_status` performs no
MonitorState check, so a result received while Idle still overwrites
`previous_status`, leaves the monitor Idle, and — when it differs from the
last reading — appends a history line and shows an alert exactly as when
Running. -/
theorem idle_result_processed (s : MonitorState) (b : Bool) (ts : String)
    (h : s.is_monitoring = false) (hp : s.previous_status = some (!b)) :
    (update_status s b ts).previous_status = some b
      ∧ (update_status s b ts).is_monitoring = false
      ∧ (update_status s b ts).alerts.length = s.alerts.length + 1
      ∧ (update_status s b ts).history.length = s.history.length + 1 := by
  refine ⟨update_status_previous_status s b ts, ?_, ?_, ?_⟩
  · rw [(update_status_fields s b ts).2.1, h]
  · cases b <;> simp [update_status, log_history, hp]
  · cases b <;> simp [update_status, log_history, hp]

/-- C6 amended witness: the late Offline result at `idleAfterStop`. -/
theorem idle_result_processed_witness :
    (update_status idleAfterStop false "t2").previous_status = some false
      ∧ (update_status idleAfterStop false "t2").is_monitoring = false
      ∧ (update_status idleAfterStop false "t2").alerts.length
          = idleAfterStop.alerts.length + 1
      ∧ (update_status idleAfterStop false "t2").history.length
          = idleAfterStop.history.length + 1 :=
  idle_result_processed idleAfterStop false "t2" rfl rfl

/-- C7: `start_monitoring` while already Running is a strict no-op (the
state is returned unchanged, so nothing is reset and no second timer is
registered), and along every event sequence from the fresh state at most
one periodic trigger is pending at a time. -/
theorem start_idempotent_single_trigger :
    (∀ s : MonitorState, s.is_monitoring = true → start_monitoring s = s)
      ∧ (∀ ops : List MonitorOp,
        (run initState ops).pending_triggers.length ≤ 1) := by
  constructor
  · intro s hm
    simp [start_monitoring, hm]
  · intro ops
    exact (run_triggerInv initState initState_triggerInv ops).1

/-- C7 witness: a second start right after the first changes nothing, and
the one-trigger bound holds on a concrete trace. -/
theorem start_idempotent_single_trigger_witness :
    start_monitoring (run initState [MonitorOp.press_start])
        = run initState [MonitorOp.press_start]
      ∧ (run initState [MonitorOp.press_start]).pending_triggers.length ≤ 1 :=
  ⟨start_idempotent_single_trigger.1 (run initState [MonitorOp.press_start]) rfl,
    start_idempotent_single_trigger.2 [MonitorOp.press_start]⟩

/-- C8: the history log is append-only: every single event and every event
sequence leaves the existing entries in place and at most appends new
entries at the end. -/
theorem history_append_only :
    (∀ (s : MonitorState) (op : MonitorOp),
        ∃ t, (step s op).history = s.history ++ t)
      ∧ (∀ (s : MonitorState) (ops : List MonitorOp),
        ∃ t, (run s ops).history = s.history ++ t) :=
  ⟨step_history_suffix, run_history_suffix⟩

/-- C9: `_schedule_check` arms the next periodic trigger in the same step
in which it launches the probe worker — before any result is delivered —
so probes outliving the 3000 ms interval overlap: the concrete trace
start, timer, timer has three probes launched and none delivered (three
in flight), none cancelled or serialized. -/
theorem next_timer_armed_at_launch :
    (∀ s : MonitorState, s.is_monitoring = true →
        (schedule_check s).launched_probes = s.launched_probes + 1
          ∧ (schedule_check s).monitor_job = some s.next_job_id
          ∧ (schedule_check s).pending_triggers
              = s.pending_triggers ++ [s.next_job_id]
          ∧ (schedule_check s).delivered_results = s.delivered_results)
      ∧ (run initState
            [MonitorOp.press_start, MonitorOp.timer_fire, MonitorOp.timer_fire]).launched_probes
          = 3
      ∧ (run initState
            [MonitorOp.press_start, MonitorOp.timer_fire, MonitorOp.timer_fire]).delivered_results
          = 0 := by
  refine ⟨?_, rfl, rfl⟩
  intro s hm
  simp [schedule_check, hm]

/-- C9 witness: the per-cycle conjunct at the concrete running state
reached by one start. -/
theorem next_timer_armed_at_launch_witness :
    ((schedule_check (run initState [MonitorOp.press_start])).launched_probes
          = (run initState [MonitorOp.press_start]).launched_probes + 1
        ∧ (schedule_check (run initState [MonitorOp.press_start])).monitor_job
          = some (run initState [MonitorOp.press_start]).next_job_id
        ∧ (schedule_check (run initState [MonitorOp.press_start])).pending_triggers
          = (run initState [MonitorOp.press_start]).pending_triggers
            ++ [(run initState [MonitorOp.press_start]).next_job_id]
        ∧ (schedule_check (run initState [MonitorOp.press_start])).delivered_results
          = (run initState [MonitorOp.press_start]).delivered_results)
      ∧ (run initState
            [MonitorOp.press_start, MonitorOp.timer_fire, MonitorOp.timer_fire]).launched_probes
          = 3 :=
  ⟨next_timer_armed_at_launch.1 (run initState [MonitorOp.press_start]) rfl,
    next_timer_armed_at_launch.2.1⟩

/-- C10: a start that actually begins monitoring appends
"Monitoring started." (a start while Running appends nothing, being a
no-op), and every stop appends "Monitoring stopped." unconditionally —
including a stop called while already Idle, which is not guarded. -/
theorem control_ops_always_log :
    (∀ s : MonitorState, s.is_monitoring = false →
        (start_monitoring s).history = s.history ++ ["Monitoring started."])
      ∧ (∀ s : MonitorState, s.is_monitoring = true → start_monitoring s = s)
      ∧ (∀ s : MonitorState,
        (stop_monitoring s).history = s.history ++ ["Monitoring stopped."]) := by
  refine ⟨?_, ?_, ?_⟩
  · intro s hm
    simp [start_monitoring, hm, schedule_check, log_history]
  · intro s hm
    simp [start_monitoring, hm]
  · intro s
    cases hj : s.monitor_job <;> simp [stop_monitoring, log_history, hj]

/-- C10 witness: the first start logs its entry, and a stop on the fresh
(already Idle) state still logs "Monitoring stopped.". -/
theorem control_ops_always_log_witness :
    (start_monitoring initState).history
        = initState.history ++ ["Monitoring started."]
      ∧ (stop_monitoring initState).history
        = initState.history ++ ["Monitoring stopped."] :=
  ⟨control_ops_always_log.1 initState rfl, control_ops_always_log.2.2 initState⟩

end NetMon
